import Mathlib

/-!
Shallow embedding of `src/main.py` of the s3-mcp repository: an adapter
exposing S3 operations as MCP tools.  Python values are modelled by the
inductive `Value`, the boto3 client by a `Backend` function from abstract
calls to results, and each tool handler by a Lean function returning the
handler result together with the ordered trace of backend calls it issued.
Python exceptions are modelled by the `Except String` monad; the string is
the exception's string form `str(e)`.
-/

namespace S3MCP

/-- A dynamically typed Python value, as used by the handlers: `None`,
booleans, integers, strings, byte strings, datetime objects (carrying their
`isoformat()` rendering), lists and (insertion-ordered) dicts. -/
inductive Value where
  | null : Value
  | bool : Bool → Value
  | int : Int → Value
  | str : String → Value
  | bytes : List Nat → Value
  | datetime : String → Value
  | list : List Value → Value
  | dict : List (String × Value) → Value

/-- A Python dict with string keys, as an insertion-ordered association list. -/
abbrev PyDict := List (String × Value)

/-- First-match association-list lookup, the semantics of `d[k]` / `d.get(k)`
on a Python dict with unique keys. -/
def lookupD : List (String × Value) → String → Option Value
  | [], _ => none
  | (k, v) :: rest, key => if k = key then some v else lookupD rest key

/-- `k in d` for a Python dict. -/
def memKey (d : PyDict) (k : String) : Bool :=
  (lookupD d k).isSome

/-- `d.get(k)`: the value when present, `None` otherwise. -/
def pyGet (d : PyDict) (k : String) : Value :=
  (lookupD d k).getD Value.null

/-- `d.get(k, dflt)`: the value when present, `dflt` otherwise. -/
def pyGetD (d : PyDict) (k : String) (dflt : Value) : Value :=
  (lookupD d k).getD dflt

/-- `d[k]` on a dict: the value when present, a `KeyError` otherwise. -/
def dictItem (d : PyDict) (k : String) : Except String Value :=
  match lookupD d k with
  | some v => Except.ok v
  | none => Except.error ("KeyError: " ++ k)

/-- `v[k]` on an arbitrary value: subscription succeeds only on dicts. -/
def getItem (v : Value) (k : String) : Except String Value :=
  match v with
  | Value.dict d => dictItem d k
  | _ => Except.error "TypeError: object is not subscriptable"

/-- Iterating a value as a Python list. -/
def asList : Value → Except String (List Value)
  | Value.list l => Except.ok l
  | _ => Except.error "TypeError: object is not iterable"

/-- `v.read()` on a streaming body: yields the raw bytes. -/
def asBytes : Value → Except String (List Nat)
  | Value.bytes bs => Except.ok bs
  | _ => Except.error "AttributeError: object has no attribute read"

/-- `k in v`: membership test, defined on dicts (the only use site feeds a
boto3 response dict). -/
def pyIn (k : String) : Value → Except String Bool
  | Value.dict d => Except.ok (memKey d k)
  | _ => Except.error "TypeError: argument is not iterable"

/-- `v.isoformat()` on a datetime value. -/
def isoformat : Value → Except String String
  | Value.datetime s => Except.ok s
  | _ => Except.error "AttributeError: object has no attribute isoformat"

/-- Python truthiness: `None`, `False`, `0`, empty string/bytes/list/dict are
falsy, everything else truthy. -/
def truthy : Value → Bool
  | Value.null => false
  | Value.bool b => b
  | Value.int n => n != 0
  | Value.str s => s != ""
  | Value.bytes bs => !bs.isEmpty
  | Value.datetime _ => true
  | Value.list l => !l.isEmpty
  | Value.dict d => !d.isEmpty

/-- `s.upper()` for the ASCII strings used as HTTP method names: uppercase
each character. -/
def pyUpper (s : String) : String :=
  String.mk (s.data.map Char.toUpper)

/-- Is `b` a UTF-8 continuation byte (`0x80``..``0xBF`)? -/
def contB (b : Nat) : Bool :=
  decide (0x80 ≤ b) && decide (b ≤ 0xBF)

/-- The string form of the exception raised by `bytes.decode("utf-8")` on
invalid input. -/
def utf8ErrMsg : String := "UnicodeDecodeError: invalid utf-8 byte sequence"

/-- Strict UTF-8 decoding of a byte list to characters, the semantics of
Python `bytes.decode("utf-8")`: rejects invalid start bytes, truncated and
non-continuation sequences, overlong encodings and surrogates. -/
def utf8DecodeChars : List Nat → Except String (List Char)
  | [] => Except.ok []
  | b0 :: rest =>
    if b0 < 0x80 then
      match utf8DecodeChars rest with
      | Except.error e => Except.error e
      | Except.ok cs => Except.ok (Char.ofNat b0 :: cs)
    else if 0xC2 ≤ b0 && b0 ≤ 0xDF then
      match rest with
      | b1 :: rest2 =>
        if contB b1 then
          match utf8DecodeChars rest2 with
          | Except.error e => Except.error e
          | Except.ok cs =>
            Except.ok (Char.ofNat ((b0 - 0xC0) * 0x40 + (b1 - 0x80)) :: cs)
        else Except.error utf8ErrMsg
      | [] => Except.error utf8ErrMsg
    else if 0xE0 ≤ b0 && b0 ≤ 0xEF then
      match rest with
      | b1 :: b2 :: rest3 =>
        if ((if b0 = 0xE0 then 0xA0 else 0x80) ≤ b1
              && b1 ≤ (if b0 = 0xED then 0x9F else 0xBF)) && contB b2 then
          match utf8DecodeChars rest3 with
          | Except.error e => Except.error e
          | Except.ok cs =>
            Except.ok (Char.ofNat
              ((b0 - 0xE0) * 0x1000 + (b1 - 0x80) * 0x40 + (b2 - 0x80)) :: cs)
        else Except.error utf8ErrMsg
      | _ => Except.error utf8ErrMsg
    else if 0xF0 ≤ b0 && b0 ≤ 0xF4 then
      match rest with
      | b1 :: b2 :: b3 :: rest4 =>
        if ((if b0 = 0xF0 then 0x90 else 0x80) ≤ b1
              && b1 ≤ (if b0 = 0xF4 then 0x8F else 0xBF))
            && contB b2 && contB b3 then
          match utf8DecodeChars rest4 with
          | Except.error e => Except.error e
          | Except.ok cs =>
            Except.ok (Char.ofNat
              ((b0 - 0xF0) * 0x40000 + (b1 - 0x80) * 0x1000
                + (b2 - 0x80) * 0x40 + (b3 - 0x80)) :: cs)
        else Except.error utf8ErrMsg
      | _ => Except.error utf8ErrMsg
    else Except.error utf8ErrMsg

/-- `bs.decode("utf-8")`: strict UTF-8 decoding to a string. -/
def utf8Decode (bs : List Nat) : Except String String :=
  match utf8DecodeChars bs with
  | Except.ok cs => Except.ok (String.mk cs)
  | Except.error e => Except.error e

/-- One backend (boto3 `s3_client` / local filesystem) invocation, with the
arguments the handler passes to it. -/
inductive Call where
  | listBuckets : Call
  | createBucket : String → Option String → Call
  | putPublicAccessBlock : String → Value → Call
  | putBucketVersioning : String → String → Call
  | putBucketEncryption : String → Value → Call
  | listObjectsV2 : String → String → Call
  | getObject : String → String → Call
  | putObject : String → String → String → Call
  | uploadFile : String → String → String → Call
  | downloadFile : String → String → String → Call
  | deleteObject : String → String → Call
  | generatePresignedUrl : String → String → String → Int → Call
  | putBucketPolicy : String → String → Call
  | getBucketPolicy : String → Call
  | deleteBucketPolicy : String → Call
  | deleteBucket : String → Call
  | copyObject : String → String → String → String → Call
  | getBucketLifecycleConfiguration : String → Call
  | putBucketLifecycleConfiguration : String → List Value → Call
  | getObjectTagging : String → String → Call
  | putObjectTagging : String → String → List Value → Call
  | getBucketCors : String → Call

/-- A backend behaviour: every call either returns a response value or
raises an exception (given by its string form). -/
def Backend := Call → Except String Value

/-- The uniform error envelope `{"error": str(e)}`. -/
def errDict (e : String) : Value :=
  Value.dict [("error", Value.str e)]

/-- The `try:` / `except Exception as e: return {"error": str(e)}` wrapper
shared by every handler: an exception from the body becomes the error
envelope; the call trace is kept. -/
def runHandler : Except String Value × List Call → Value × List Call
  | (Except.ok v, tr) => (v, tr)
  | (Except.error e, tr) => (errDict e, tr)

/-- A handler body that issues exactly one backend call `c` and then
post-processes the response with `k` (any exception from `k` also
propagates to the handler's `except` clause). -/
def oneCall (b : Backend) (c : Call) (k : Value → Except String Value) :
    Except String Value × List Call :=
  match b c with
  | Except.error e => (Except.error e, [c])
  | Except.ok resp => (k resp, [c])

/-- `main.py` lines 29-34: body of `list_buckets`. -/
def list_bucketsBody (b : Backend) : Except String Value × List Call :=
  oneCall b Call.listBuckets (fun response => do
    let bucketsV ← getItem response "Buckets"
    let bucketL ← asList bucketsV
    let names ← bucketL.mapM (fun bk => getItem bk "Name")
    pure (Value.dict [("buckets", Value.list names)]))

/-- `main.py` lines 16-34: the `list_buckets` tool handler. -/
def list_buckets (b : Backend) : Value × List Call :=
  runHandler (list_bucketsBody b)

/-- `main.py` line 68: `region if region != "us-east-1" else None`. -/
def locationConstraint (region : String) : Option String :=
  if region ≠ "us-east-1" then some region else none

/-- One optional sub-configuration backend call: the call is recorded in the
trace whether it succeeds or raises. -/
def stepCall (b : Backend) (c : Call) : Except String Unit × List Call :=
  match b c with
  | Except.ok _ => (Except.ok (), [c])
  | Except.error e => (Except.error e, [c])

/-- Sequencing of sub-configuration steps: a raised exception skips the
remaining steps, and traces concatenate. -/
def seqSteps (first : Except String Unit × List Call)
    (rest : Unit → Except String Unit × List Call) :
    Except String Unit × List Call :=
  match first with
  | (Except.ok _, tr) =>
    match rest () with
    | (r, tr2) => (r, tr ++ tr2)
  | (Except.error e, tr) => (Except.error e, tr)

/-- `main.py` lines 73-77: `if config.get("blockPublicAccess"):` then
`put_public_access_block(..., config["blockPublicAccess"])`. -/
def pabStep (b : Backend) (bucket_name : String) (cfg : PyDict) :
    Except String Unit × List Call :=
  if truthy (pyGet cfg "blockPublicAccess") then
    match dictItem cfg "blockPublicAccess" with
    | Except.error e => (Except.error e, [])
    | Except.ok v => stepCall b (Call.putPublicAccessBlock bucket_name v)
  else (Except.ok (), [])

/-- `main.py` lines 78-84: `if config.get("versioning"):` then
`put_bucket_versioning` with status
`"Enabled" if config["versioning"] else "Suspended"`. -/
def versioningStep (b : Backend) (bucket_name : String) (cfg : PyDict) :
    Except String Unit × List Call :=
  if truthy (pyGet cfg "versioning") then
    match dictItem cfg "versioning" with
    | Except.error e => (Except.error e, [])
    | Except.ok v =>
      stepCall b (Call.putBucketVersioning bucket_name
        (if truthy v then "Enabled" else "Suspended"))
  else (Except.ok (), [])

/-- `main.py` lines 85-97: `if config.get("encryption"):` then
`put_bucket_encryption` with `SSEAlgorithm = config["encryption"]`. -/
def encryptionStep (b : Backend) (bucket_name : String) (cfg : PyDict) :
    Except String Unit × List Call :=
  if truthy (pyGet cfg "encryption") then
    match dictItem cfg "encryption" with
    | Except.error e => (Except.error e, [])
    | Except.ok v => stepCall b (Call.putBucketEncryption bucket_name v)
  else (Except.ok (), [])

/-- `main.py` lines 72-97: the three sub-configuration steps, in source
order: public-access block, then versioning, then encryption. -/
def configSteps (b : Backend) (bucket_name : String) (cfg : PyDict) :
    Except String Unit × List Call :=
  seqSteps (pabStep b bucket_name cfg) (fun _ =>
    seqSteps (versioningStep b bucket_name cfg) (fun _ =>
      encryptionStep b bucket_name cfg))

/-- `main.py` line 72: `if config:` — the whole sub-configuration block,
skipped when `config` is `None` or an empty (falsy) dict. -/
def subConfig (b : Backend) (bucket_name : String) (config : Option PyDict) :
    Except String Unit × List Call :=
  match config with
  | some cfg =>
    if truthy (Value.dict cfg) then configSteps b bucket_name cfg
    else (Except.ok (), [])
  | none => (Except.ok (), [])

/-- `main.py` lines 64-100: body of `create_bucket`. -/
def create_bucketBody (b : Backend) (bucket_name : String)
    (region : String := "us-west-1") (config : Option PyDict := none) :
    Except String Value × List Call :=
  let c0 := Call.createBucket bucket_name (locationConstraint region)
  match b c0 with
  | Except.error e => (Except.error e, [c0])
  | Except.ok _ =>
    match subConfig b bucket_name config with
    | (Except.ok _, tr) =>
      (Except.ok (Value.dict
        [("success", Value.bool true), ("bucket", Value.str bucket_name)]),
       c0 :: tr)
    | (Except.error e, tr) => (Except.error e, c0 :: tr)

/-- `main.py` lines 37-100: the `create_bucket` tool handler. -/
def create_bucket (b : Backend) (bucket_name : String)
    (region : String := "us-west-1") (config : Option PyDict := none) :
    Value × List Call :=
  runHandler (create_bucketBody b bucket_name region config)

/-- `main.py` lines 126-140: body of `list_bucket`. -/
def list_bucketBody (b : Backend) (bucket_name : String)
    ( key_prefix : String := "") : Except String Value × List Call :=
  oneCall b (Call.listObjectsV2 bucket_name key_prefix) (fun response => do
    let hasContents ← pyIn "Contents" response
    let files ←
      if hasContents then do
        let contents ← getItem response "Contents"
        let objs ← asList contents
        objs.mapM (fun obj => do
          let k ← getItem obj "Key"
          let sz ← getItem obj "Size"
          let lm ← getItem obj "LastModified"
          let iso ← isoformat lm
          pure (Value.dict
            [("key", k), ("size", sz), ("last_modified", Value.str iso)]))
      else pure []
    pure (Value.dict
      [("bucket", Value.str bucket_name), ("files", Value.list files)]))

/-- `main.py` lines 103-140: the `list_bucket` tool handler. -/
def list_bucket (b : Backend) (bucket_name : String)
    ( key_prefix : String := "") : Value × List Call :=
  runHandler (list_bucketBody b bucket_name key_prefix)

/-- `main.py` lines 160-164: body of `get_object`. -/
def get_objectBody (b : Backend) (bucket_name : String) (key : String) :
    Except String Value × List Call :=
  oneCall b (Call.getObject bucket_name key) (fun response => do
    let bodyV ← getItem response "Body"
    let bs ← asBytes bodyV
    let s ← utf8Decode bs
    pure (Value.str s))

/-- `main.py` lines 143-164: the `get_object` tool handler; on success the
result is the decoded body itself, not a mapping. -/
def get_object (b : Backend) (bucket_name : String) (key : String) :
    Value × List Call :=
  runHandler (get_objectBody b bucket_name key)

/-- `main.py` lines 187-191: body of `put_object`. -/
def put_objectBody (b : Backend) (bucket_name : String) (key : String)
    (body : String) : Except String Value × List Call :=
  oneCall b (Call.putObject bucket_name key body) (fun _ =>
    Except.ok (Value.dict [("success", Value.bool true)]))

/-- `main.py` lines 167-191: the `put_object` tool handler. -/
def put_object (b : Backend) (bucket_name : String) (key : String)
    (body : String) : Value × List Call :=
  runHandler (put_objectBody b bucket_name key body)

/-- `main.py` lines 214-218: body of `upload_local_file`. -/
def upload_local_fileBody (b : Backend) (bucket_name : String)
    (local_path : String) (key : String) : Except String Value × List Call :=
  oneCall b (Call.uploadFile local_path bucket_name key) (fun _ =>
    Except.ok (Value.dict [("success", Value.bool true)]))

/-- `main.py` lines 194-218: the `upload_local_file` tool handler. -/
def upload_local_file (b : Backend) (bucket_name : String)
    (local_path : String) (key : String) : Value × List Call :=
  runHandler (upload_local_fileBody b bucket_name local_path key)

/-- `main.py` lines 244-248: body of `download_file_to_local`. -/
def download_file_to_localBody (b : Backend) (bucket_name : String)
    (key : String) (local_path : String) : Except String Value × List Call :=
  oneCall b (Call.downloadFile bucket_name key local_path) (fun _ =>
    Except.ok (Value.dict [("success", Value.bool true)]))

/-- `main.py` lines 221-248: the `download_file_to_local` tool handler. -/
def download_file_to_local (b : Backend) (bucket_name : String)
    (key : String) (local_path : String) : Value × List Call :=
  runHandler (download_file_to_localBody b bucket_name key local_path)

/-- `main.py` lines 270-274: body of `delete_object`. -/
def delete_objectBody (b : Backend) (bucket_name : String) (key : String) :
    Except String Value × List Call :=
  oneCall b (Call.deleteObject bucket_name key) (fun _ =>
    Except.ok (Value.dict [("success", Value.bool true)]))

/-- `main.py` lines 251-274: the `delete_object` tool handler. -/
def delete_object (b : Backend) (bucket_name : String) (key : String) :
    Value × List Call :=
  runHandler (delete_objectBody b bucket_name key)

/-- `main.py` lines 306-314: body of `generate_presigned_url`; the client
method is `"get_object" if http_method.upper() == "GET" else "put_object"`. -/
def generate_presigned_urlBody (b : Backend) (bucket_name : String)
    (key : String) (expires_in : Int := 3600) (http_method : String := "GET") :
    Except String Value × List Call :=
  oneCall b (Call.generatePresignedUrl
      (if pyUpper http_method = "GET" then "get_object" else "put_object")
      bucket_name key expires_in)
    (fun url =>
      Except.ok (Value.dict [("success", Value.bool true), ("url", url)]))

/-- `main.py` lines 277-314: the `generate_presigned_url` tool handler. -/
def generate_presigned_url (b : Backend) (bucket_name : String)
    (key : String) (expires_in : Int := 3600) (http_method : String := "GET") :
    Value × List Call :=
  runHandler (generate_presigned_urlBody b bucket_name key expires_in http_method)

/-- `main.py` lines 336-340: body of `put_bucket_policy`. -/
def put_bucket_policyBody (b : Backend) (bucket_name : String)
    (policy_json : String) : Except String Value × List Call :=
  oneCall b (Call.putBucketPolicy bucket_name policy_json) (fun _ =>
    Except.ok (Value.dict [("success", Value.bool true)]))

/-- `main.py` lines 317-340: the `put_bucket_policy` tool handler. -/
def put_bucket_policy (b : Backend) (bucket_name : String)
    (policy_json : String) : Value × List Call :=
  runHandler (put_bucket_policyBody b bucket_name policy_json)

/-- `main.py` lines 362-366: body of `get_bucket_policy`. -/
def get_bucket_policyBody (b : Backend) (bucket_name : String) :
    Except String Value × List Call :=
  oneCall b (Call.getBucketPolicy bucket_name) (fun response => do
    let p ← getItem response "Policy"
    pure (Value.dict [("success", Value.bool true), ("policy", p)]))

/-- `main.py` lines 343-366: the `get_bucket_policy` tool handler. -/
def get_bucket_policy (b : Backend) (bucket_name : String) :
    Value × List Call :=
  runHandler (get_bucket_policyBody b bucket_name)

/-- `main.py` lines 387-391: body of `delete_bucket_policy`. -/
def delete_bucket_policyBody (b : Backend) (bucket_name : String) :
    Except String Value × List Call :=
  oneCall b (Call.deleteBucketPolicy bucket_name) (fun _ =>
    Except.ok (Value.dict [("success", Value.bool true)]))

/-- `main.py` lines 369-391: the `delete_bucket_policy` tool handler. -/
def delete_bucket_policy (b : Backend) (bucket_name : String) :
    Value × List Call :=
  runHandler (delete_bucket_policyBody b bucket_name)

/-- `main.py` lines 412-416: body of `delete_bucket`. -/
def delete_bucketBody (b : Backend) (bucket_name : String) :
    Except String Value × List Call :=
  oneCall b (Call.deleteBucket bucket_name) (fun _ =>
    Except.ok (Value.dict [("success", Value.bool true)]))

/-- `main.py` lines 394-416: the `delete_bucket` tool handler. -/
def delete_bucket (b : Backend) (bucket_name : String) : Value × List Call :=
  runHandler (delete_bucketBody b bucket_name)

/-- `main.py` lines 445-453: body of `copy_object`. -/
def copy_objectBody (b : Backend) (source_bucket : String)
    (source_key : String) (dest_bucket : String) (dest_key : String) :
    Except String Value × List Call :=
  oneCall b (Call.copyObject source_bucket source_key dest_bucket dest_key)
    (fun response => do
      let res ← getItem response "CopyObjectResult"
      let etag ← getItem res "ETag"
      pure (Value.dict [("success", Value.bool true), ("copy_id", etag)]))

/-- `main.py` lines 419-453: the `copy_object` tool handler. -/
def copy_object (b : Backend) (source_bucket : String) (source_key : String)
    (dest_bucket : String) (dest_key : String) : Value × List Call :=
  runHandler (copy_objectBody b source_bucket source_key dest_bucket dest_key)

/-- `main.py` line 483: `{k: v for k, v in rule.items()}` — a shallow copy,
defined on dicts only. -/
def copyDict : Value → Except String Value
  | Value.dict d => Except.ok (Value.dict d)
  | _ => Except.error "AttributeError: object has no attribute items"

/-- `main.py` lines 480-486: body of `get_bucket_lifecycle`. -/
def get_bucket_lifecycleBody (b : Backend) (bucket_name : String) :
    Except String Value × List Call :=
  oneCall b (Call.getBucketLifecycleConfiguration bucket_name)
    (fun response => do
      let rulesV ← getItem response "Rules"
      let ruleL ← asList rulesV
      let rules ← ruleL.mapM copyDict
      pure (Value.dict [("rules", Value.list rules)]))

/-- `main.py` lines 456-486: the `get_bucket_lifecycle` tool handler. -/
def get_bucket_lifecycle (b : Backend) (bucket_name : String) :
    Value × List Call :=
  runHandler (get_bucket_lifecycleBody b bucket_name)

/-- `main.py` lines 511-520: the per-rule normalization of
`put_bucket_lifecycle`: exactly six fields, each looked up with `rule.get`,
with default `[]` for the two transition lists and `None` elsewhere. -/
def formatRule (rule : PyDict) : Value :=
  Value.dict
    [("ID", pyGet rule "ID"),
     ("Status", pyGet rule "Status"),
     ("Transitions", pyGetD rule "Transitions" (Value.list [])),
     ("Expiration", pyGet rule "Expiration"),
     ("NoncurrentVersionExpiration", pyGet rule "NoncurrentVersionExpiration"),
     ("NoncurrentVersionTransitions",
       pyGetD rule "NoncurrentVersionTransitions" (Value.list []))]

/-- `main.py` lines 508-531: body of `put_bucket_lifecycle`. -/
def put_bucket_lifecycleBody (b : Backend) (bucket_name : String)
    (lifecycle_config : List PyDict) : Except String Value × List Call :=
  oneCall b
    (Call.putBucketLifecycleConfiguration bucket_name
      (lifecycle_config.map formatRule))
    (fun _ => Except.ok (Value.dict [("success", Value.bool true)]))

/-- `main.py` lines 489-531: the `put_bucket_lifecycle` tool handler. -/
def put_bucket_lifecycle (b : Backend) (bucket_name : String)
    (lifecycle_config : List PyDict) : Value × List Call :=
  runHandler (put_bucket_lifecycleBody b bucket_name lifecycle_config)

/-- `main.py` lines 556-563: body of `get_object_tagging`. -/
def get_object_taggingBody (b : Backend) (bucket_name : String)
    (key : String) : Except String Value × List Call :=
  oneCall b (Call.getObjectTagging bucket_name key) (fun response => do
    let tagSetV ← getItem response "TagSet"
    let tagL ← asList tagSetV
    let tags ← tagL.mapM (fun tag => do
      let k ← getItem tag "Key"
      let v ← getItem tag "Value"
      pure (Value.dict [("Key", k), ("Value", v)]))
    pure (Value.dict [("tags", Value.list tags)]))

/-- `main.py` lines 534-563: the `get_object_tagging` tool handler. -/
def get_object_tagging (b : Backend) (bucket_name : String) (key : String) :
    Value × List Call :=
  runHandler (get_object_taggingBody b bucket_name key)

/-- `main.py` line 587: `{"Key": tag["Key"], "Value": tag["Value"]}` for one
input tag entry; a missing key raises. -/
def fmtTag (tag : PyDict) : Except String Value := do
  let k ← dictItem tag "Key"
  let v ← dictItem tag "Value"
  pure (Value.dict [("Key", k), ("Value", v)])

/-- `main.py` lines 586-596: body of `put_object_tagging`; the tag list is
re-normalized before the single backend call, so a `KeyError` during
formatting issues no call at all. -/
def put_object_taggingBody (b : Backend) (bucket_name : String)
    (key : String) (tags : List PyDict) : Except String Value × List Call :=
  match tags.mapM fmtTag with
  | Except.error e => (Except.error e, [])
  | Except.ok formatted =>
    oneCall b (Call.putObjectTagging bucket_name key formatted) (fun _ =>
      Except.ok (Value.dict [("success", Value.bool true)]))

/-- `main.py` lines 566-596: the `put_object_tagging` tool handler. -/
def put_object_tagging (b : Backend) (bucket_name : String) (key : String)
    (tags : List PyDict) : Value × List Call :=
  runHandler (put_object_taggingBody b bucket_name key tags)

/-- `main.py` lines 624-629: body of `get_bucket_cors`. -/
def get_bucket_corsBody (b : Backend) (bucket_name : String) :
    Except String Value × List Call :=
  oneCall b (Call.getBucketCors bucket_name) (fun response => do
    let rulesV ← getItem response "CORSRules"
    let ruleL ← asList rulesV
    let rules ← ruleL.mapM copyDict
    pure (Value.dict [("cors_rules", Value.list rules)]))

/-- `main.py` lines 599-629: the `get_bucket_cors` tool handler. -/
def get_bucket_cors (b : Backend) (bucket_name : String) :
    Value × List Call :=
  runHandler (get_bucket_corsBody b bucket_name)

/-- A backend that never raises (a success stub). -/
def okBackend : Backend := fun _ => Except.ok Value.null

/-- A backend whose every call raises the exception `"boom"`. -/
def failBackend : Backend := fun _ => Except.error "boom"

/-- A backend that raises `"boom"` on the versioning call only and
succeeds on everything else. -/
def versioningFailBackend : Backend := fun c =>
  match c with
  | Call.putBucketVersioning _ _ => Except.error "boom"
  | _ => Except.ok Value.null

/-- The calls `create_bucket` may issue: bucket creation and the three
sub-configuration calls on the same bucket; in particular no deletion or
other compensating call. -/
def createFamily (bucket_name : String) : Call → Prop
  | Call.createBucket bkt _ => bkt = bucket_name
  | Call.putPublicAccessBlock bkt _ => bkt = bucket_name
  | Call.putBucketVersioning bkt _ => bkt = bucket_name
  | Call.putBucketEncryption bkt _ => bkt = bucket_name
  | _ => False

lemma runHandler_fst_error (p : Except String Value × List Call) (e : String)
    (h : p.1 = Except.error e) : (runHandler p).1 = errDict e := by
  obtain ⟨r, tr⟩ := p
  simp at h
  subst h
  rfl

lemma truthy_pyGet_item (cfg : PyDict) (k : String)
    (h : truthy (pyGet cfg k) = true) :
    dictItem cfg k = Except.ok (pyGet cfg k) := by
  unfold dictItem pyGet at *
  cases hl : lookupD cfg k with
  | none => rw [hl] at h; simp [truthy] at h
  | some v => simp [hl]

lemma truthy_pyGet_memKey (cfg : PyDict) (k : String)
    (h : truthy (pyGet cfg k) = true) : memKey cfg k = true := by
  unfold memKey pyGet at *
  cases hl : lookupD cfg k with
  | none => rw [hl] at h; simp [truthy] at h
  | some v => simp [hl]

lemma mapM_ok_of_forall {α β : Type} (f : α → Except String β) (g : α → β)
    (l : List α) (h : ∀ a ∈ l, f a = Except.ok (g a)) :
    l.mapM f = Except.ok (l.map g) := by
  induction l with
  | nil => rfl
  | cons a as ih =>
    have ha := h a (by simp)
    have has : ∀ x ∈ as, f x = Except.ok (g x) := fun x hx => h x (by simp [hx])
    rw [List.mapM_cons, ha, ih has]
    rfl

lemma stepCall_snd (b : Backend) (c : Call) : (stepCall b c).2 = [c] := by
  unfold stepCall
  cases b c <;> rfl

lemma stepCall_error (b : Backend) (c : Call) (e : String)
    (h : (stepCall b c).1 = Except.error e) :
    stepCall b c = (Except.error e, [c]) ∧ b c = Except.error e := by
  unfold stepCall at *
  cases hb : b c with
  | ok v => rw [hb] at h; simp at h
  | error e2 =>
    rw [hb] at h
    simp at h
    subst h
    exact ⟨rfl, rfl⟩

lemma pabStep_eq_of_truthy (b : Backend) (bucket_name : String) (cfg : PyDict)
    (ht : truthy (pyGet cfg "blockPublicAccess") = true) :
    pabStep b bucket_name cfg =
      stepCall b (Call.putPublicAccessBlock bucket_name (pyGet cfg "blockPublicAccess")) := by
  unfold pabStep
  rw [if_pos ht, truthy_pyGet_item cfg _ ht]

lemma versioningStep_eq_of_truthy (b : Backend) (bucket_name : String) (cfg : PyDict)
    (ht : truthy (pyGet cfg "versioning") = true) :
    versioningStep b bucket_name cfg =
      stepCall b (Call.putBucketVersioning bucket_name "Enabled") := by
  unfold versioningStep
  rw [if_pos ht, truthy_pyGet_item cfg _ ht]
  show stepCall b (Call.putBucketVersioning bucket_name
    (if truthy (pyGet cfg "versioning") = true then "Enabled" else "Suspended")) = _
  rw [if_pos ht]

lemma encryptionStep_eq_of_truthy (b : Backend) (bucket_name : String) (cfg : PyDict)
    (ht : truthy (pyGet cfg "encryption") = true) :
    encryptionStep b bucket_name cfg =
      stepCall b (Call.putBucketEncryption bucket_name (pyGet cfg "encryption")) := by
  unfold encryptionStep
  rw [if_pos ht, truthy_pyGet_item cfg _ ht]

lemma pabStep_shape (b : Backend) (bucket_name : String) (cfg : PyDict) :
    (pabStep b bucket_name cfg).2 = [] ∨
      ∃ v, (pabStep b bucket_name cfg).2 = [Call.putPublicAccessBlock bucket_name v] ∧
        memKey cfg "blockPublicAccess" = true := by
  by_cases ht : truthy (pyGet cfg "blockPublicAccess") = true
  · rw [pabStep_eq_of_truthy b bucket_name cfg ht, stepCall_snd]
    exact Or.inr ⟨_, rfl, truthy_pyGet_memKey cfg _ ht⟩
  · unfold pabStep
    rw [if_neg ht]
    exact Or.inl rfl

lemma versioningStep_shape (b : Backend) (bucket_name : String) (cfg : PyDict) :
    (versioningStep b bucket_name cfg).2 = [] ∨
      ((versioningStep b bucket_name cfg).2 = [Call.putBucketVersioning bucket_name "Enabled"] ∧
        memKey cfg "versioning" = true) := by
  by_cases ht : truthy (pyGet cfg "versioning") = true
  · rw [versioningStep_eq_of_truthy b bucket_name cfg ht, stepCall_snd]
    exact Or.inr ⟨rfl, truthy_pyGet_memKey cfg _ ht⟩
  · unfold versioningStep
    rw [if_neg ht]
    exact Or.inl rfl

lemma encryptionStep_shape (b : Backend) (bucket_name : String) (cfg : PyDict) :
    (encryptionStep b bucket_name cfg).2 = [] ∨
      ∃ v, (encryptionStep b bucket_name cfg).2 = [Call.putBucketEncryption bucket_name v] ∧
        memKey cfg "encryption" = true := by
  by_cases ht : truthy (pyGet cfg "encryption") = true
  · rw [encryptionStep_eq_of_truthy b bucket_name cfg ht, stepCall_snd]
    exact Or.inr ⟨_, rfl, truthy_pyGet_memKey cfg _ ht⟩
  · unfold encryptionStep
    rw [if_neg ht]
    exact Or.inl rfl

lemma pabStep_error (b : Backend) (bucket_name : String) (cfg : PyDict)
    (e : String) (h : (pabStep b bucket_name cfg).1 = Except.error e) :
    ∃ c, pabStep b bucket_name cfg = (Except.error e, [c]) ∧ b c = Except.error e := by
  by_cases ht : truthy (pyGet cfg "blockPublicAccess") = true
  · rw [pabStep_eq_of_truthy b bucket_name cfg ht] at h ⊢
    obtain ⟨h1, h2⟩ := stepCall_error _ _ _ h
    exact ⟨_, h1, h2⟩
  · unfold pabStep at h
    rw [if_neg ht] at h
    simp at h

lemma versioningStep_error (b : Backend) (bucket_name : String) (cfg : PyDict)
    (e : String) (h : (versioningStep b bucket_name cfg).1 = Except.error e) :
    ∃ c, versioningStep b bucket_name cfg = (Except.error e, [c]) ∧ b c = Except.error e := by
  by_cases ht : truthy (pyGet cfg "versioning") = true
  · rw [versioningStep_eq_of_truthy b bucket_name cfg ht] at h ⊢
    obtain ⟨h1, h2⟩ := stepCall_error _ _ _ h
    exact ⟨_, h1, h2⟩
  · unfold versioningStep at h
    rw [if_neg ht] at h
    simp at h

lemma encryptionStep_error (b : Backend) (bucket_name : String) (cfg : PyDict)
    (e : String) (h : (encryptionStep b bucket_name cfg).1 = Except.error e) :
    ∃ c, encryptionStep b bucket_name cfg = (Except.error e, [c]) ∧ b c = Except.error e := by
  by_cases ht : truthy (pyGet cfg "encryption") = true
  · rw [encryptionStep_eq_of_truthy b bucket_name cfg ht] at h ⊢
    obtain ⟨h1, h2⟩ := stepCall_error _ _ _ h
    exact ⟨_, h1, h2⟩
  · unfold encryptionStep at h
    rw [if_neg ht] at h
    simp at h

lemma getLast?_append_singleton {α : Type} (l : List α) (a : α) :
    (l ++ [a]).getLast? = some a := by
  rw [List.getLast?_append_cons]
  rfl

/-- Decomposition of the sub-configuration trace: one optional call per
step, in the fixed order public-access block, versioning, encryption, each
present only when its config key is present; a versioning call always
carries status `"Enabled"`. -/
lemma configSteps_decomp (b : Backend) (bucket_name : String) (cfg : PyDict) :
    ∃ t1 t2 t3,
      (configSteps b bucket_name cfg).2 = t1 ++ t2 ++ t3 ∧
      (t1 = [] ∨ ∃ v, t1 = [Call.putPublicAccessBlock bucket_name v] ∧
        memKey cfg "blockPublicAccess" = true) ∧
      (t2 = [] ∨ (t2 = [Call.putBucketVersioning bucket_name "Enabled"] ∧
        memKey cfg "versioning" = true)) ∧
      (t3 = [] ∨ ∃ v, t3 = [Call.putBucketEncryption bucket_name v] ∧
        memKey cfg "encryption" = true) := by
  unfold configSteps seqSteps
  have s1 := pabStep_shape b bucket_name cfg
  have s2 := versioningStep_shape b bucket_name cfg
  have s3 := encryptionStep_shape b bucket_name cfg
  rcases h1 : pabStep b bucket_name cfg with ⟨r1, t1⟩
  rw [h1] at s1
  cases r1 with
  | error e => exact ⟨t1, [], [], by simp, s1, Or.inl rfl, Or.inl rfl⟩
  | ok u =>
    rcases h2 : versioningStep b bucket_name cfg with ⟨r2, t2⟩
    rw [h2] at s2
    cases r2 with
    | error e => exact ⟨t1, t2, [], by simp, s1, s2, Or.inl rfl⟩
    | ok u2 =>
      rcases h3 : encryptionStep b bucket_name cfg with ⟨r3, t3⟩
      rw [h3] at s3
      exact ⟨t1, t2, t3, by simp, s1, s2, s3⟩

/-- When the sub-configuration block raises, the last recorded call is the
one whose backend invocation raised that very exception. -/
lemma configSteps_error_last (b : Backend) (bucket_name : String) (cfg : PyDict)
    (e : String) (h : (configSteps b bucket_name cfg).1 = Except.error e) :
    ∃ c, (configSteps b bucket_name cfg).2.getLast? = some c ∧
      b c = Except.error e := by
  unfold configSteps seqSteps at h ⊢
  rcases h1 : pabStep b bucket_name cfg with ⟨r1, t1⟩
  rw [h1] at h
  cases r1 with
  | error e1 =>
    simp at h
    subst h
    obtain ⟨c, hc, hbc⟩ := pabStep_error b bucket_name cfg e1 (by rw [h1])
    rw [h1] at hc
    have ht : t1 = [c] := congrArg Prod.snd hc
    subst ht
    exact ⟨c, by simp, hbc⟩
  | ok u =>
    rcases h2 : versioningStep b bucket_name cfg with ⟨r2, t2⟩
    rw [h2] at h
    cases r2 with
    | error e2 =>
      simp at h
      subst h
      obtain ⟨c, hc, hbc⟩ := versioningStep_error b bucket_name cfg e2 (by rw [h2])
      rw [h2] at hc
      have ht : t2 = [c] := congrArg Prod.snd hc
      subst ht
      exact ⟨c, by simp [getLast?_append_singleton], hbc⟩
    | ok u2 =>
      rcases h3 : encryptionStep b bucket_name cfg with ⟨r3, t3⟩
      rw [h3] at h
      cases r3 with
      | error e3 =>
        simp at h
        subst h
        obtain ⟨c, hc, hbc⟩ := encryptionStep_error b bucket_name cfg e3 (by rw [h3])
        rw [h3] at hc
        have ht : t3 = [c] := congrArg Prod.snd hc
        subst ht
        refine ⟨c, ?_, hbc⟩
        show (t1 ++ (t2 ++ [c])).getLast? = some c
        rw [← List.append_assoc]
        exact getLast?_append_singleton _ c
      | ok u3 => simp at h

/-- Every call the sub-configuration block records is one of the three
sub-configuration calls on the created bucket. -/
lemma configSteps_family (b : Backend) (bucket_name : String) (cfg : PyDict) :
    ∀ c ∈ (configSteps b bucket_name cfg).2, createFamily bucket_name c := by
  obtain ⟨t1, t2, t3, htr, s1, s2, s3⟩ := configSteps_decomp b bucket_name cfg
  intro c hc
  rw [htr] at hc
  rcases List.mem_append.mp hc with hc12 | hc3
  · rcases List.mem_append.mp hc12 with hc1 | hc2
    · rcases s1 with h | ⟨v, h, -⟩ <;> rw [h] at hc1
      · cases hc1
      · rw [List.mem_singleton.mp hc1]
        exact rfl
    · rcases s2 with h | ⟨h, -⟩ <;> rw [h] at hc2
      · cases hc2
      · rw [List.mem_singleton.mp hc2]
        exact rfl
  · rcases s3 with h | ⟨v, h, -⟩ <;> rw [h] at hc3
    · cases hc3
    · rw [List.mem_singleton.mp hc3]
      exact rfl

/-- The `create_bucket` trace always starts with the creation call and
continues with the sub-configuration trace (empty when creation raises). -/
lemma create_bucket_trace_shape (b : Backend) (bucket_name region : String)
    (config : Option PyDict) :
    ∃ rest, (create_bucket b bucket_name region config).2 =
        Call.createBucket bucket_name (locationConstraint region) :: rest ∧
      (rest = [] ∨ rest = (subConfig b bucket_name config).2) := by
  unfold create_bucket create_bucketBody
  cases hb : b (Call.createBucket bucket_name (locationConstraint region)) with
  | error e => exact ⟨[], by simp [runHandler, hb], Or.inl rfl⟩
  | ok v =>
    rcases hs : subConfig b bucket_name config with ⟨r, tr⟩
    cases r with
    | ok u =>
      refine ⟨tr, ?_, Or.inr rfl⟩
      simp [runHandler, hb]
    | error e =>
      refine ⟨tr, ?_, Or.inr rfl⟩
      simp [runHandler, hb]

lemma subConfig_some_truthy (b : Backend) (bucket_name : String) (cfg : PyDict)
    (ht : truthy (Value.dict cfg) = true) :
    subConfig b bucket_name (some cfg) = configSteps b bucket_name cfg := by
  simp only [subConfig]
  rw [if_pos ht]

lemma subConfig_some_falsy (b : Backend) (bucket_name : String) (cfg : PyDict)
    (ht : ¬truthy (Value.dict cfg) = true) :
    subConfig b bucket_name (some cfg) = (Except.ok (), []) := by
  simp only [subConfig]
  rw [if_neg ht]

/-- The two cases of a `create_bucket` run: the creation call raises (trace
is just that call), or it succeeds and the trace continues with the
sub-configuration calls. -/
lemma create_bucket_trace_cases (b : Backend) (bucket_name region : String)
    (config : Option PyDict) :
    ((create_bucket b bucket_name region config).2 =
        [Call.createBucket bucket_name (locationConstraint region)] ∧
      ∃ e, b (Call.createBucket bucket_name (locationConstraint region)) = Except.error e) ∨
    ((create_bucket b bucket_name region config).2 =
        Call.createBucket bucket_name (locationConstraint region) ::
          (subConfig b bucket_name config).2 ∧
      ∃ v, b (Call.createBucket bucket_name (locationConstraint region)) = Except.ok v) := by
  unfold create_bucket create_bucketBody
  cases hb : b (Call.createBucket bucket_name (locationConstraint region)) with
  | error e => exact Or.inl ⟨by simp [runHandler, hb], e, rfl⟩
  | ok v =>
    refine Or.inr ⟨?_, v, rfl⟩
    rcases hs : subConfig b bucket_name config with ⟨r, tr⟩
    cases r <;> simp [runHandler, hb]

lemma pabStep_fst_ok (b : Backend) (bucket_name : String) (cfg : PyDict)
    (hok : ∀ c, ∃ v, b c = Except.ok v) :
    (pabStep b bucket_name cfg).1 = Except.ok () := by
  by_cases ht : truthy (pyGet cfg "blockPublicAccess") = true
  · rw [pabStep_eq_of_truthy b bucket_name cfg ht]
    obtain ⟨v, hv⟩ := hok (Call.putPublicAccessBlock bucket_name (pyGet cfg "blockPublicAccess"))
    unfold stepCall
    rw [hv]
  · unfold pabStep
    rw [if_neg ht]

/-- With a backend that never raises, a truthy `versioning` key makes the
sub-configuration block issue the versioning call with status `"Enabled"`. -/
lemma configSteps_versioning_mem (b : Backend) (bucket_name : String) (cfg : PyDict)
    (hok : ∀ c, ∃ v, b c = Except.ok v)
    (ht : truthy (pyGet cfg "versioning") = true) :
    Call.putBucketVersioning bucket_name "Enabled" ∈ (configSteps b bucket_name cfg).2 := by
  obtain ⟨vv, hvv⟩ := hok (Call.putBucketVersioning bucket_name "Enabled")
  have hst : stepCall b (Call.putBucketVersioning bucket_name "Enabled") =
      (Except.ok (), [Call.putBucketVersioning bucket_name "Enabled"]) := by
    unfold stepCall
    rw [hvv]
  rcases he : encryptionStep b bucket_name cfg with ⟨r3, t3⟩
  have hinner : seqSteps (versioningStep b bucket_name cfg)
      (fun _ => encryptionStep b bucket_name cfg) =
      (r3, [Call.putBucketVersioning bucket_name "Enabled"] ++ t3) := by
    rw [versioningStep_eq_of_truthy b bucket_name cfg ht, hst]
    unfold seqSteps
    rw [he]
  rcases hp : pabStep b bucket_name cfg with ⟨r1, t1⟩
  have hr1 : r1 = Except.ok () := by
    have h2 := pabStep_fst_ok b bucket_name cfg hok
    rw [hp] at h2
    exact h2
  subst hr1
  unfold configSteps
  rw [hp, hinner]
  unfold seqSteps
  simp

lemma getLast?_cons_of_getLast? {α : Type} (a : α) (l : List α) (c : α)
    (h : l.getLast? = some c) : (a :: l).getLast? = some c := by
  cases l with
  | nil => simp at h
  | cons x xs => rw [List.getLast?_cons_cons]; exact h

/-- Every call `create_bucket` ever issues is the creation call or one of
the three sub-configuration calls on that same bucket: there is no
compensating or rollback call of any kind in any run. -/
lemma create_bucket_family (b : Backend) (bucket_name region : String)
    (config : Option PyDict) :
    ∀ c ∈ (create_bucket b bucket_name region config).2,
      createFamily bucket_name c := by
  intro c hc
  obtain ⟨rest, htr, hrest⟩ := create_bucket_trace_shape b bucket_name region config
  rw [htr] at hc
  rcases List.mem_cons.mp hc with h | h
  · subst h
    exact rfl
  · rcases hrest with h0 | h0
    · rw [h0] at h
      cases h
    · rw [h0] at h
      cases config with
      | none => simp [subConfig] at h
      | some cfg =>
        by_cases ht : truthy (Value.dict cfg) = true
        · rw [subConfig_some_truthy b bucket_name cfg ht] at h
          exact configSteps_family b bucket_name cfg c h
        · rw [subConfig_some_falsy b bucket_name cfg ht] at h
          cases h

/-- C1: for every tool handler, if any exception is raised during the
handler's work (backend call or the handler's own processing), the handler
returns a mapping containing exactly one field, `"error"`, whose value is
the exception's string form, with no success fields.  No exception escapes:
each handler is a total function into `Value × List Call`, so the only
failure signal is this envelope. -/
theorem handlers_error_envelope :
    (∀ (b : Backend) (e : String), (list_bucketsBody b).1 = Except.error e →
      (list_buckets b).1 = Value.dict [("error", Value.str e)]) ∧
    (∀ (b : Backend) (bucket_name region : String) (config : Option PyDict)
      (e : String), (create_bucketBody b bucket_name region config).1 = Except.error e →
      (create_bucket b bucket_name region config).1 = Value.dict [("error", Value.str e)]) ∧
    (∀ (b : Backend) (bucket_name kp e : String),
      (list_bucketBody b bucket_name kp).1 = Except.error e →
      (list_bucket b bucket_name kp).1 = Value.dict [("error", Value.str e)]) ∧
    (∀ (b : Backend) (bucket_name key e : String),
      (get_objectBody b bucket_name key).1 = Except.error e →
      (get_object b bucket_name key).1 = Value.dict [("error", Value.str e)]) ∧
    (∀ (b : Backend) (bucket_name key body e : String),
      (put_objectBody b bucket_name key body).1 = Except.error e →
      (put_object b bucket_name key body).1 = Value.dict [("error", Value.str e)]) ∧
    (∀ (b : Backend) (bucket_name local_path key e : String),
      (upload_local_fileBody b bucket_name local_path key).1 = Except.error e →
      (upload_local_file b bucket_name local_path key).1 = Value.dict [("error", Value.str e)]) ∧
    (∀ (b : Backend) (bucket_name key local_path e : String),
      (download_file_to_localBody b bucket_name key local_path).1 = Except.error e →
      (download_file_to_local b bucket_name key local_path).1 = Value.dict [("error", Value.str e)]) ∧
    (∀ (b : Backend) (bucket_name key e : String),
      (delete_objectBody b bucket_name key).1 = Except.error e →
      (delete_object b bucket_name key).1 = Value.dict [("error", Value.str e)]) ∧
    (∀ (b : Backend) (bucket_name key : String) (expires_in : Int)
      (http_method e : String),
      (generate_presigned_urlBody b bucket_name key expires_in http_method).1 = Except.error e →
      (generate_presigned_url b bucket_name key expires_in http_method).1 = Value.dict [("error", Value.str e)]) ∧
    (∀ (b : Backend) (bucket_name policy_json e : String),
      (put_bucket_policyBody b bucket_name policy_json).1 = Except.error e →
      (put_bucket_policy b bucket_name policy_json).1 = Value.dict [("error", Value.str e)]) ∧
    (∀ (b : Backend) (bucket_name e : String),
      (get_bucket_policyBody b bucket_name).1 = Except.error e →
      (get_bucket_policy b bucket_name).1 = Value.dict [("error", Value.str e)]) ∧
    (∀ (b : Backend) (bucket_name e : String),
      (delete_bucket_policyBody b bucket_name).1 = Except.error e →
      (delete_bucket_policy b bucket_name).1 = Value.dict [("error", Value.str e)]) ∧
    (∀ (b : Backend) (bucket_name e : String),
      (delete_bucketBody b bucket_name).1 = Except.error e →
      (delete_bucket b bucket_name).1 = Value.dict [("error", Value.str e)]) ∧
    (∀ (b : Backend) (source_bucket source_key dest_bucket dest_key e : String),
      (copy_objectBody b source_bucket source_key dest_bucket dest_key).1 = Except.error e →
      (copy_object b source_bucket source_key dest_bucket dest_key).1 = Value.dict [("error", Value.str e)]) ∧
    (∀ (b : Backend) (bucket_name e : String),
      (get_bucket_lifecycleBody b bucket_name).1 = Except.error e →
      (get_bucket_lifecycle b bucket_name).1 = Value.dict [("error", Value.str e)]) ∧
    (∀ (b : Backend) (bucket_name : String) (lifecycle_config : List PyDict)
      (e : String),
      (put_bucket_lifecycleBody b bucket_name lifecycle_config).1 = Except.error e →
      (put_bucket_lifecycle b bucket_name lifecycle_config).1 = Value.dict [("error", Value.str e)]) ∧
    (∀ (b : Backend) (bucket_name key e : String),
      (get_object_taggingBody b bucket_name key).1 = Except.error e →
      (get_object_tagging b bucket_name key).1 = Value.dict [("error", Value.str e)]) ∧
    (∀ (b : Backend) (bucket_name key : String) (tags : List PyDict) (e : String),
      (put_object_taggingBody b bucket_name key tags).1 = Except.error e →
      (put_object_tagging b bucket_name key tags).1 = Value.dict [("error", Value.str e)]) ∧
    (∀ (b : Backend) (bucket_name e : String),
      (get_bucket_corsBody b bucket_name).1 = Except.error e →
      (get_bucket_cors b bucket_name).1 = Value.dict [("error", Value.str e)]) :=
  ⟨fun _ e h => runHandler_fst_error _ e h,
   fun _ _ _ _ e h => runHandler_fst_error _ e h,
   fun _ _ _ e h => runHandler_fst_error _ e h,
   fun _ _ _ e h => runHandler_fst_error _ e h,
   fun _ _ _ _ e h => runHandler_fst_error _ e h,
   fun _ _ _ _ e h => runHandler_fst_error _ e h,
   fun _ _ _ _ e h => runHandler_fst_error _ e h,
   fun _ _ _ e h => runHandler_fst_error _ e h,
   fun _ _ _ _ _ e h => runHandler_fst_error _ e h,
   fun _ _ _ e h => runHandler_fst_error _ e h,
   fun _ _ e h => runHandler_fst_error _ e h,
   fun _ _ e h => runHandler_fst_error _ e h,
   fun _ _ e h => runHandler_fst_error _ e h,
   fun _ _ _ _ _ e h => runHandler_fst_error _ e h,
   fun _ _ e h => runHandler_fst_error _ e h,
   fun _ _ _ e h => runHandler_fst_error _ e h,
   fun _ _ _ e h => runHandler_fst_error _ e h,
   fun _ _ _ _ e h => runHandler_fst_error _ e h,
   fun _ _ e h => runHandler_fst_error _ e h⟩

/-- Witness for C1: every handler, run against a backend whose every call
raises `"boom"`, returns exactly the one-field error envelope. -/
theorem handlers_error_envelope_check :
    (list_buckets failBackend).1 = Value.dict [("error", Value.str "boom")] ∧
    (create_bucket failBackend "b" "us-west-1" none).1 = Value.dict [("error", Value.str "boom")] ∧
    (list_bucket failBackend "b" "").1 = Value.dict [("error", Value.str "boom")] ∧
    (get_object failBackend "b" "k").1 = Value.dict [("error", Value.str "boom")] ∧
    (put_object failBackend "b" "k" "body").1 = Value.dict [("error", Value.str "boom")] ∧
    (upload_local_file failBackend "b" "/tmp/f" "k").1 = Value.dict [("error", Value.str "boom")] ∧
    (download_file_to_local failBackend "b" "k" "/tmp/f").1 = Value.dict [("error", Value.str "boom")] ∧
    (delete_object failBackend "b" "k").1 = Value.dict [("error", Value.str "boom")] ∧
    (generate_presigned_url failBackend "b" "k" 3600 "GET").1 = Value.dict [("error", Value.str "boom")] ∧
    (put_bucket_policy failBackend "b" "{}").1 = Value.dict [("error", Value.str "boom")] ∧
    (get_bucket_policy failBackend "b").1 = Value.dict [("error", Value.str "boom")] ∧
    (delete_bucket_policy failBackend "b").1 = Value.dict [("error", Value.str "boom")] ∧
    (delete_bucket failBackend "b").1 = Value.dict [("error", Value.str "boom")] ∧
    (copy_object failBackend "sb" "sk" "db" "dk").1 = Value.dict [("error", Value.str "boom")] ∧
    (get_bucket_lifecycle failBackend "b").1 = Value.dict [("error", Value.str "boom")] ∧
    (put_bucket_lifecycle failBackend "b" []).1 = Value.dict [("error", Value.str "boom")] ∧
    (get_object_tagging failBackend "b" "k").1 = Value.dict [("error", Value.str "boom")] ∧
    (put_object_tagging failBackend "b" "k" []).1 = Value.dict [("error", Value.str "boom")] ∧
    (get_bucket_cors failBackend "b").1 = Value.dict [("error", Value.str "boom")] :=
  ⟨handlers_error_envelope.1 failBackend "boom" rfl,
   handlers_error_envelope.2.1 failBackend "b" "us-west-1" none "boom" rfl,
   handlers_error_envelope.2.2.1 failBackend "b" "" "boom" rfl,
   handlers_error_envelope.2.2.2.1 failBackend "b" "k" "boom" rfl,
   handlers_error_envelope.2.2.2.2.1 failBackend "b" "k" "body" "boom" rfl,
   handlers_error_envelope.2.2.2.2.2.1 failBackend "b" "/tmp/f" "k" "boom" rfl,
   handlers_error_envelope.2.2.2.2.2.2.1 failBackend "b" "k" "/tmp/f" "boom" rfl,
   handlers_error_envelope.2.2.2.2.2.2.2.1 failBackend "b" "k" "boom" rfl,
   handlers_error_envelope.2.2.2.2.2.2.2.2.1 failBackend "b" "k" 3600 "GET" "boom" rfl,
   handlers_error_envelope.2.2.2.2.2.2.2.2.2.1 failBackend "b" "{}" "boom" rfl,
   handlers_error_envelope.2.2.2.2.2.2.2.2.2.2.1 failBackend "b" "boom" rfl,
   handlers_error_envelope.2.2.2.2.2.2.2.2.2.2.2.1 failBackend "b" "boom" rfl,
   handlers_error_envelope.2.2.2.2.2.2.2.2.2.2.2.2.1 failBackend "b" "boom" rfl,
   handlers_error_envelope.2.2.2.2.2.2.2.2.2.2.2.2.2.1 failBackend "sb" "sk" "db" "dk" "boom" rfl,
   handlers_error_envelope.2.2.2.2.2.2.2.2.2.2.2.2.2.2.1 failBackend "b" "boom" rfl,
   handlers_error_envelope.2.2.2.2.2.2.2.2.2.2.2.2.2.2.2.1 failBackend "b" [] "boom" rfl,
   handlers_error_envelope.2.2.2.2.2.2.2.2.2.2.2.2.2.2.2.2.1 failBackend "b" "k" "boom" rfl,
   handlers_error_envelope.2.2.2.2.2.2.2.2.2.2.2.2.2.2.2.2.2.1 failBackend "b" "k" [] "boom" rfl,
   handlers_error_envelope.2.2.2.2.2.2.2.2.2.2.2.2.2.2.2.2.2.2 failBackend "b" "boom" rfl⟩

/-- C2: the bucket-creation backend call carries no location constraint
when `region = "us-east-1"`, and carries the region string as the
constraint for every other region value. -/
theorem create_bucket_location_constraint :
    (∀ (b : Backend) (bucket_name : String) (config : Option PyDict),
      (create_bucket b bucket_name "us-east-1" config).2.head? =
        some (Call.createBucket bucket_name none)) ∧
    (∀ (b : Backend) (bucket_name region : String) (config : Option PyDict),
      region ≠ "us-east-1" →
      (create_bucket b bucket_name region config).2.head? =
        some (Call.createBucket bucket_name (some region))) := by
  constructor
  · intro b bn cfg
    obtain ⟨rest, htr, -⟩ := create_bucket_trace_shape b bn "us-east-1" cfg
    rw [htr]
    simp [locationConstraint]
  · intro b bn region cfg hne
    obtain ⟨rest, htr, -⟩ := create_bucket_trace_shape b bn region cfg
    rw [htr]
    simp [locationConstraint, hne]

/-- Witness for C2: a non-default region is passed through as the explicit
location constraint. -/
theorem create_bucket_location_constraint_check :
    (create_bucket okBackend "demo" "eu-west-1" none).2.head? =
      some (Call.createBucket "demo" (some "eu-west-1")) :=
  create_bucket_location_constraint.2 okBackend "demo" "eu-west-1" none (by decide)

/-- C5: `get_object` returns the body decoded as UTF-8 text as a raw
string (not wrapped in a mapping) on success, and a mapping with an error
field on failure; the two shapes are disjoint, so callers can discriminate
by shape. -/
theorem get_object_result_shape :
    (∀ (b : Backend) (bucket_name key : String) (resp : Value)
      (bs : List Nat) (s : String),
      b (Call.getObject bucket_name key) = Except.ok resp →
      getItem resp "Body" = Except.ok (Value.bytes bs) →
      utf8Decode bs = Except.ok s →
      (get_object b bucket_name key).1 = Value.str s) ∧
    (∀ (b : Backend) (bucket_name key e : String),
      b (Call.getObject bucket_name key) = Except.error e →
      (get_object b bucket_name key).1 = Value.dict [("error", Value.str e)]) ∧
    (∀ (s e : String), Value.str s ≠ Value.dict [("error", Value.str e)]) := by
  refine ⟨?_, ?_, ?_⟩
  · intro b bn key resp bs s hb h2 h3
    unfold get_object get_objectBody oneCall
    rw [hb]
    simp [runHandler, h2, h3, asBytes, Bind.bind, Except.bind, Pure.pure, Except.pure]
  · intro b bn key e hb
    apply runHandler_fst_error
    unfold get_objectBody oneCall
    rw [hb]
  · intro s e h
    cases h

/-- Witness for C5: a backend returning the bytes of `"hi"` yields the raw
string `"hi"`; a raising backend yields the error envelope. -/
theorem get_object_result_shape_check :
    (get_object (fun _ => Except.ok (Value.dict [("Body", Value.bytes [104, 105])])) "b" "k").1 =
      Value.str "hi" ∧
    (get_object failBackend "b" "k").1 = Value.dict [("error", Value.str "boom")] :=
  ⟨get_object_result_shape.1 (fun _ => Except.ok (Value.dict [("Body", Value.bytes [104, 105])]))
      "b" "k" (Value.dict [("Body", Value.bytes [104, 105])]) [104, 105] "hi" rfl rfl rfl,
   get_object_result_shape.2.1 failBackend "b" "k" "boom" rfl⟩

/-- C10: when the backend call of `get_object` succeeds but the body is not
valid UTF-8, the decoding exception is caught by the handler's outermost
scope and converted to the single-field error envelope: the handler returns
neither raw bytes nor raises. -/
theorem get_object_invalid_utf8 :
    ∀ (b : Backend) (bucket_name key : String) (resp : Value)
      (bs : List Nat) (e : String),
      b (Call.getObject bucket_name key) = Except.ok resp →
      getItem resp "Body" = Except.ok (Value.bytes bs) →
      utf8Decode bs = Except.error e →
      (get_object b bucket_name key).1 = Value.dict [("error", Value.str e)] := by
  intro b bn key resp bs e hb h2 h3
  apply runHandler_fst_error
  unfold get_objectBody oneCall
  rw [hb]
  simp [h2, h3, asBytes, Bind.bind, Except.bind]

/-- Witness for C10: the invalid byte `0xFF` makes `get_object` return the
decode-error envelope. -/
theorem get_object_invalid_utf8_check :
    (get_object (fun _ => Except.ok (Value.dict [("Body", Value.bytes [255])])) "b" "k").1 =
      Value.dict [("error", Value.str utf8ErrMsg)] :=
  get_object_invalid_utf8 (fun _ => Except.ok (Value.dict [("Body", Value.bytes [255])]))
    "b" "k" (Value.dict [("Body", Value.bytes [255])]) [255] utf8ErrMsg rfl rfl rfl

/-- C3: with a config mapping present, `create_bucket` issues at most three
additional backend calls after the creation call, in the fixed order
public-access block, then versioning, then encryption, each present only
when its config key is supplied; a config holding only `versioning: true`
issues exactly the versioning sub-call and nothing else. -/
theorem create_bucket_subcall_order :
    (∀ (b : Backend) (bucket_name region : String) (cfg : PyDict),
      ∃ t1 t2 t3,
        (create_bucket b bucket_name region (some cfg)).2 =
          Call.createBucket bucket_name (locationConstraint region) :: (t1 ++ t2 ++ t3) ∧
        (t1 = [] ∨ ∃ v, t1 = [Call.putPublicAccessBlock bucket_name v] ∧
          memKey cfg "blockPublicAccess" = true) ∧
        (t2 = [] ∨ (t2 = [Call.putBucketVersioning bucket_name "Enabled"] ∧
          memKey cfg "versioning" = true)) ∧
        (t3 = [] ∨ ∃ v, t3 = [Call.putBucketEncryption bucket_name v] ∧
          memKey cfg "encryption" = true)) ∧
    (∀ b : Backend, (∀ c, ∃ v, b c = Except.ok v) →
      (create_bucket b "demo" "us-west-1" (some [("versioning", Value.bool true)])).2 =
        [Call.createBucket "demo" (some "us-west-1"),
         Call.putBucketVersioning "demo" "Enabled"]) := by
  constructor
  · intro b bn region cfg
    obtain ⟨rest, htr, hrest⟩ := create_bucket_trace_shape b bn region (some cfg)
    rcases hrest with h | h
    · exact ⟨[], [], [], by rw [htr, h]; rfl, Or.inl rfl, Or.inl rfl, Or.inl rfl⟩
    · by_cases ht : truthy (Value.dict cfg) = true
      · rw [subConfig_some_truthy b bn cfg ht] at h
        obtain ⟨t1, t2, t3, hd, s1, s2, s3⟩ := configSteps_decomp b bn cfg
        exact ⟨t1, t2, t3, by rw [htr, h, hd], s1, s2, s3⟩
      · rw [subConfig_some_falsy b bn cfg ht] at h
        exact ⟨[], [], [], by rw [htr, h]; rfl, Or.inl rfl, Or.inl rfl, Or.inl rfl⟩
  · intro b hok
    obtain ⟨v0, h0⟩ := hok (Call.createBucket "demo" (some "us-west-1"))
    obtain ⟨v1, h1⟩ := hok (Call.putBucketVersioning "demo" "Enabled")
    have hstep : stepCall b (Call.putBucketVersioning "demo" "Enabled") =
        (Except.ok (), [Call.putBucketVersioning "demo" "Enabled"]) := by
      unfold stepCall
      rw [h1]
    have hv : versioningStep b "demo" [("versioning", Value.bool true)] =
        stepCall b (Call.putBucketVersioning "demo" "Enabled") := rfl
    have hcfg : configSteps b "demo" [("versioning", Value.bool true)] =
        (Except.ok (), [Call.putBucketVersioning "demo" "Enabled"]) := by
      unfold configSteps
      rw [hv, hstep]
      rfl
    have hsub : subConfig b "demo" (some [("versioning", Value.bool true)]) =
        (Except.ok (), [Call.putBucketVersioning "demo" "Enabled"]) := by
      rw [subConfig_some_truthy b "demo" [("versioning", Value.bool true)] rfl]
      exact hcfg
    simp only [create_bucket, create_bucketBody]
    rw [show locationConstraint "us-west-1" = some "us-west-1" from rfl, h0, hsub]
    rfl

/-- Witness for C3: against a success stub, a config of only
`versioning: true` issues the creation call and exactly one sub-call. -/
theorem create_bucket_subcall_order_check :
    (create_bucket okBackend "demo" "us-west-1" (some [("versioning", Value.bool true)])).2 =
      [Call.createBucket "demo" (some "us-west-1"),
       Call.putBucketVersioning "demo" "Enabled"] :=
  create_bucket_subcall_order.2 okBackend (fun _ => ⟨Value.null, rfl⟩)

/-- Counterexample to C4: with `versioning: false` in the config, the
handler issues no versioning call at all — there is no backend call with
status `"Suspended"`; the guard `if config.get("versioning"):` skips the
whole sub-call on a falsy value. -/
theorem create_bucket_versioning_false_no_call :
    create_bucket okBackend "demo" "us-west-1" (some [("versioning", Value.bool false)]) =
      (Value.dict [("success", Value.bool true), ("bucket", Value.str "demo")],
       [Call.createBucket "demo" (some "us-west-1")]) ∧
    Call.putBucketVersioning "demo" "Suspended" ∉
      (create_bucket okBackend "demo" "us-west-1" (some [("versioning", Value.bool false)])).2 := by
  refine ⟨rfl, ?_⟩
  intro h
  rw [show (create_bucket okBackend "demo" "us-west-1"
      (some [("versioning", Value.bool false)])).2 =
      [Call.createBucket "demo" (some "us-west-1")] from rfl] at h
  simp at h

/-- C4 (amended): the versioning sub-configuration call, whenever issued,
carries status `"Enabled"`; it is issued exactly when the config's
versioning value is truthy, so a false value issues no call and the status
`"Suspended"` in the source is dead code, never submitted. -/
theorem create_bucket_versioning_status :
    (∀ (b : Backend) (bucket_name region : String) (config : Option PyDict)
      (bkt s : String),
      Call.putBucketVersioning bkt s ∈ (create_bucket b bucket_name region config).2 →
      s = "Enabled") ∧
    (∀ (b : Backend) (bucket_name region : String) (cfg : PyDict),
      (∀ c, ∃ v, b c = Except.ok v) →
      truthy (pyGet cfg "versioning") = true →
      Call.putBucketVersioning bucket_name "Enabled" ∈
        (create_bucket b bucket_name region (some cfg)).2) := by
  constructor
  · intro b bn region config bkt s hmem
    obtain ⟨rest, htr, hrest⟩ := create_bucket_trace_shape b bn region config
    rw [htr] at hmem
    rcases List.mem_cons.mp hmem with hc | hc
    · simp at hc
    · rcases hrest with h0 | h0
      · rw [h0] at hc
        cases hc
      · rw [h0] at hc
        cases config with
        | none => simp [subConfig] at hc
        | some cfg =>
          by_cases ht : truthy (Value.dict cfg) = true
          · rw [subConfig_some_truthy b bn cfg ht] at hc
            obtain ⟨t1, t2, t3, hd, s1, s2, s3⟩ := configSteps_decomp b bn cfg
            rw [hd] at hc
            rcases List.mem_append.mp hc with h12 | h3x
            · rcases List.mem_append.mp h12 with h1x | h2x
              · rcases s1 with he | ⟨v, he, -⟩ <;> rw [he] at h1x
                · cases h1x
                · simp at h1x
              · rcases s2 with he | ⟨he, -⟩ <;> rw [he] at h2x
                · cases h2x
                · rw [List.mem_singleton] at h2x
                  injection h2x with hb2 hs2
            · rcases s3 with he | ⟨v, he, -⟩ <;> rw [he] at h3x
              · cases h3x
              · simp at h3x
          · rw [subConfig_some_falsy b bn cfg ht] at hc
            cases hc
  · intro b bn region cfg hok ht
    rcases create_bucket_trace_cases b bn region (some cfg) with ⟨htr, e, hb⟩ | ⟨htr, v, hb⟩
    · obtain ⟨v0, h0⟩ := hok (Call.createBucket bn (locationConstraint region))
      rw [h0] at hb
      cases hb
    · rw [htr]
      refine List.mem_cons_of_mem _ ?_
      have ht2 : truthy (Value.dict cfg) = true := by
        cases cfg with
        | nil => rw [show pyGet [] "versioning" = Value.null from rfl] at ht; simp [truthy] at ht
        | cons p rest2 => rfl
      rw [subConfig_some_truthy b bn cfg ht2]
      exact configSteps_versioning_mem b bn cfg hok ht

/-- Witness for C4 (amended): a truthy versioning value yields the
`"Enabled"` call against a success stub. -/
theorem create_bucket_versioning_status_check :
    Call.putBucketVersioning "demo" "Enabled" ∈
      (create_bucket okBackend "demo" "us-west-1"
        (some [("versioning", Value.bool true)])).2 :=
  create_bucket_versioning_status.2 okBackend "demo" "us-west-1"
    [("versioning", Value.bool true)] (fun _ => ⟨Value.null, rfl⟩) rfl

/-- C6: if the creation call succeeds and the handler nevertheless returns
the error envelope, then every issued call belongs to the creation family
(no compensating or rollback call such as a bucket deletion is ever
issued), and the last issued call is precisely the sub-configuration call
whose backend invocation raised that error. -/
theorem create_bucket_no_rollback :
    ∀ (b : Backend) (bucket_name region : String) (config : Option PyDict)
      (v0 : Value) (e : String),
      b (Call.createBucket bucket_name (locationConstraint region)) = Except.ok v0 →
      (create_bucket b bucket_name region config).1 = Value.dict [("error", Value.str e)] →
      (∀ c ∈ (create_bucket b bucket_name region config).2, createFamily bucket_name c) ∧
      ∃ c, (create_bucket b bucket_name region config).2.getLast? = some c ∧
        b c = Except.error e := by
  intro b bn region config v0 e hb herr
  refine ⟨create_bucket_family b bn region config, ?_⟩
  rcases hs : subConfig b bn config with ⟨rs, ts⟩
  cases rs with
  | ok u =>
    have hres : (create_bucket b bn region config).1 =
        Value.dict [("success", Value.bool true), ("bucket", Value.str bn)] := by
      simp only [create_bucket, create_bucketBody]
      rw [hb, hs]
      rfl
    rw [hres] at herr
    simp at herr
  | error e2 =>
    have hres : (create_bucket b bn region config).1 = Value.dict [("error", Value.str e2)] := by
      simp only [create_bucket, create_bucketBody]
      rw [hb, hs]
      rfl
    rw [hres] at herr
    simp at herr
    subst herr
    have htr : (create_bucket b bn region config).2 =
        Call.createBucket bn (locationConstraint region) :: ts := by
      simp only [create_bucket, create_bucketBody]
      rw [hb, hs]
      rfl
    cases config with
    | none =>
      rw [show subConfig b bn none = (Except.ok (), []) from rfl] at hs
      cases hs
    | some cfg =>
      by_cases ht : truthy (Value.dict cfg) = true
      · rw [subConfig_some_truthy b bn cfg ht] at hs
        have herrSub : (configSteps b bn cfg).1 = Except.error e2 := by rw [hs]
        obtain ⟨c, hlast, hbc⟩ := configSteps_error_last b bn cfg e2 herrSub
        rw [hs] at hlast
        rw [htr]
        exact ⟨c, getLast?_cons_of_getLast? _ ts c hlast, hbc⟩
      · rw [subConfig_some_falsy b bn cfg ht] at hs
        cases hs

/-- Witness for C6: a backend that fails only the versioning call leaves a
trace of creation then versioning, with no rollback, and the handler
returns that failure's envelope. -/
theorem create_bucket_no_rollback_check :
    (∀ c ∈ (create_bucket versioningFailBackend "demo" "us-west-1"
        (some [("versioning", Value.bool true)])).2, createFamily "demo" c) ∧
    ∃ c, (create_bucket versioningFailBackend "demo" "us-west-1"
        (some [("versioning", Value.bool true)])).2.getLast? = some c ∧
      versioningFailBackend c = Except.error "boom" :=
  create_bucket_no_rollback versioningFailBackend "demo" "us-west-1"
    (some [("versioning", Value.bool true)]) Value.null "boom" rfl rfl

lemma oneCall_trace (b : Backend) (c : Call) (k : Value → Except String Value) :
    (runHandler (oneCall b c k)).2 = [c] := by
  unfold oneCall
  cases hb : b c with
  | error e => rfl
  | ok v =>
    show (runHandler (k v, [c])).2 = [c]
    cases hk : k v with
    | ok w => rfl
    | error e => rfl

lemma memKey_dictItem (d : PyDict) (k : String) (h : memKey d k = true) :
    dictItem d k = Except.ok (pyGet d k) := by
  unfold memKey dictItem pyGet at *
  cases hl : lookupD d k with
  | none => rw [hl] at h; simp at h
  | some v => simp [hl]

/-- The six fields of a normalized lifecycle rule, in submission order. -/
def lifecycleFields : List String :=
  ["ID", "Status", "Transitions", "Expiration",
   "NoncurrentVersionExpiration", "NoncurrentVersionTransitions"]

/-- The keys of a dict value, in order. -/
def dictKeys : Value → List String
  | Value.dict d => d.map Prod.fst
  | _ => []

/-- Lookup inside a dict value. -/
def vlookup : Value → String → Option Value
  | Value.dict d, k => lookupD d k
  | _, _ => none

/-- C7: `put_bucket_lifecycle` submits one backend call whose rules are the
input rules normalized by `formatRule`; a normalized rule has exactly the
six fields `{ID, Status, Transitions, Expiration,
NoncurrentVersionExpiration, NoncurrentVersionTransitions}` in that order,
any extra input field is dropped, a present field passes its value through,
and a missing field is present as `None` (or as the empty list for the two
transition-list fields) rather than omitted. -/
theorem put_bucket_lifecycle_normalizes :
    (∀ (b : Backend) (bucket_name : String) (lifecycle_config : List PyDict),
      (put_bucket_lifecycle b bucket_name lifecycle_config).2 =
        [Call.putBucketLifecycleConfiguration bucket_name
          (lifecycle_config.map formatRule)]) ∧
    (∀ rule : PyDict, dictKeys (formatRule rule) = lifecycleFields) ∧
    (∀ (rule : PyDict) (k : String), k ∉ lifecycleFields →
      vlookup (formatRule rule) k = none) ∧
    (∀ (rule : PyDict) (k : String) (v : Value), k ∈ lifecycleFields →
      lookupD rule k = some v → vlookup (formatRule rule) k = some v) ∧
    (∀ (rule : PyDict) (k : String),
      (k = "ID" ∨ k = "Status" ∨ k = "Expiration" ∨ k = "NoncurrentVersionExpiration") →
      lookupD rule k = none → vlookup (formatRule rule) k = some Value.null) ∧
    (∀ (rule : PyDict) (k : String),
      (k = "Transitions" ∨ k = "NoncurrentVersionTransitions") →
      lookupD rule k = none → vlookup (formatRule rule) k = some (Value.list [])) := by
  refine ⟨fun b bn lc => oneCall_trace _ _ _, fun rule => rfl, ?_, ?_, ?_, ?_⟩
  · intro rule k hk
    simp only [lifecycleFields, List.mem_cons, List.mem_singleton, not_or] at hk
    obtain ⟨h1, h2, h3, h4, h5, h6, -⟩ := hk
    simp [formatRule, vlookup, lookupD, Ne.symm h1, Ne.symm h2, Ne.symm h3,
      Ne.symm h4, Ne.symm h5, Ne.symm h6]
  · intro rule k v hk hl
    fin_cases hk <;>
      simp [formatRule, vlookup, lookupD, pyGet, pyGetD, hl]
  · intro rule k hk hl
    rcases hk with rfl | rfl | rfl | rfl <;>
      simp [formatRule, vlookup, lookupD, pyGet, pyGetD, hl]
  · intro rule k hk hl
    rcases hk with rfl | rfl <;>
      simp [formatRule, vlookup, lookupD, pyGet, pyGetD, hl]

/-- Witness for C7: a rule with an extra field and most fields missing is
normalized to the fixed field set, the extra field dropped, the missing
ones present as `None` or the empty list. -/
theorem put_bucket_lifecycle_normalizes_check :
    vlookup (formatRule [("ID", Value.str "r1"), ("Extra", Value.int 5)]) "Extra" = none ∧
    vlookup (formatRule [("ID", Value.str "r1"), ("Extra", Value.int 5)]) "ID" =
      some (Value.str "r1") ∧
    vlookup (formatRule [("ID", Value.str "r1"), ("Extra", Value.int 5)]) "Status" =
      some Value.null ∧
    vlookup (formatRule [("ID", Value.str "r1"), ("Extra", Value.int 5)]) "Transitions" =
      some (Value.list []) :=
  ⟨put_bucket_lifecycle_normalizes.2.2.1 _ "Extra" (by decide),
   put_bucket_lifecycle_normalizes.2.2.2.1 _ "ID" (Value.str "r1") (by decide) rfl,
   put_bucket_lifecycle_normalizes.2.2.2.2.1 _ "Status" (Or.inr (Or.inl rfl)) rfl,
   put_bucket_lifecycle_normalizes.2.2.2.2.2 _ "Transitions" (Or.inl rfl) rfl⟩

/-- Counterexample to C8: `http_method = "get"` is a value other than
`"GET"`, yet the backend is invoked for a get-style URL, because the code
compares `http_method.upper()` with `"GET"`. -/
theorem generate_presigned_url_lowercase_get :
    "get" ≠ "GET" ∧
    (generate_presigned_url okBackend "demo" "f.txt" 60 "get").2 =
      [Call.generatePresignedUrl "get_object" "demo" "f.txt" 60] ∧
    "get_object" ≠ "put_object" :=
  ⟨by decide, rfl, by decide⟩

/-- C8 (amended): the signed-URL style is chosen by the uppercased method:
`http_method.upper() = "GET"` gives a get-style call and every other value
a put-style call; the defaults are `expires_in = 3600` and
`http_method = "GET"`, and `expires_in` is passed through unvalidated. -/
theorem generate_presigned_url_method :
    (∀ (b : Backend) (bucket_name key : String) (expires_in : Int)
      (http_method : String),
      (generate_presigned_url b bucket_name key expires_in http_method).2 =
        [Call.generatePresignedUrl
          (if pyUpper http_method = "GET" then "get_object" else "put_object")
          bucket_name key expires_in]) ∧
    (∀ (b : Backend) (bucket_name key : String) (expires_in : Int)
      (http_method : String), pyUpper http_method ≠ "GET" →
      (generate_presigned_url b bucket_name key expires_in http_method).2 =
        [Call.generatePresignedUrl "put_object" bucket_name key expires_in]) ∧
    (∀ (b : Backend) (bucket_name key : String),
      generate_presigned_url b bucket_name key =
        generate_presigned_url b bucket_name key 3600 "GET") := by
  have h1 : ∀ (b : Backend) (bucket_name key : String) (expires_in : Int)
      (http_method : String),
      (generate_presigned_url b bucket_name key expires_in http_method).2 =
        [Call.generatePresignedUrl
          (if pyUpper http_method = "GET" then "get_object" else "put_object")
          bucket_name key expires_in] :=
    fun b bn key exp m => oneCall_trace _ _ _
  refine ⟨h1, ?_, fun _ _ _ => rfl⟩
  intro b bn key exp m hm
  rw [h1 b bn key exp m, if_neg hm]

/-- Witness for C8 (amended): method `"PUT"` yields a put-style call. -/
theorem generate_presigned_url_method_check :
    (generate_presigned_url okBackend "demo" "f.txt" 60 "PUT").2 =
      [Call.generatePresignedUrl "put_object" "demo" "f.txt" 60] :=
  generate_presigned_url_method.2.1 okBackend "demo" "f.txt" 60 "PUT" (by decide)

/-- C9: when every input tag entry contains `Key` and `Value`, the tag set
submitted to the backend is exactly the ordered list of `{Key, Value}`
pairs taken from the entries, with any extra entry fields dropped. -/
theorem put_object_tagging_normalizes :
    ∀ (b : Backend) (bucket_name key : String) (tags : List PyDict),
      (∀ t ∈ tags, memKey t "Key" = true ∧ memKey t "Value" = true) →
      (put_object_tagging b bucket_name key tags).2 =
        [Call.putObjectTagging bucket_name key
          (tags.map (fun t => Value.dict
            [("Key", pyGet t "Key"), ("Value", pyGet t "Value")]))] := by
  intro b bn key tags htags
  have hmap : tags.mapM fmtTag = Except.ok (tags.map (fun t => Value.dict
      [("Key", pyGet t "Key"), ("Value", pyGet t "Value")])) := by
    apply mapM_ok_of_forall
    intro t ht
    obtain ⟨hK, hV⟩ := htags t ht
    unfold fmtTag
    rw [memKey_dictItem t "Key" hK, memKey_dictItem t "Value" hV]
    simp [Bind.bind, Except.bind, Pure.pure, Except.pure]
  simp only [put_object_tagging, put_object_taggingBody]
  rw [hmap]
  exact oneCall_trace _ _ _

/-- Witness for C9: an entry with an extra field is re-emitted as exactly
its `{Key, Value}` pair. -/
theorem put_object_tagging_normalizes_check :
    (put_object_tagging okBackend "b" "k"
      [[("Key", Value.str "env"), ("Value", Value.str "prod"), ("Extra", Value.int 1)]]).2 =
      [Call.putObjectTagging "b" "k"
        [Value.dict [("Key", Value.str "env"), ("Value", Value.str "prod")]]] :=
  put_object_tagging_normalizes okBackend "b" "k"
    [[("Key", Value.str "env"), ("Value", Value.str "prod"), ("Extra", Value.int 1)]]
    (by decide)

end S3MCP
